import Mathlib

/-!
A shallow embedding of src/main.rs of RustyTerminAI: a shell fallback
handler that probes whether the first token of a typed command resolves on
the search path and, when it does not, queries one of two LLM provider HTTP
APIs (xAI or OpenRouter) for a suggestion.

Effects are modelled by a World record supplying the outcome of every
environment-variable lookup, of the `which` probe and of the network; one
program run produces a Trace recording the stdout lines, the stderr lines,
the outbound network calls and the process exit code.
-/

namespace TerminAI

/-- JSON values, as serde_json represents them. -/
inductive Json where
  | null : Json
  | bool : Bool → Json
  | num : Int → Json
  | str : String → Json
  | arr : List Json → Json
  | obj : List (String × Json) → Json
  deriving Repr

/-- Indexing a JSON value by object key, as serde_json indexing does: the
value under the key, and Null when the value is not an object or the key is
absent. -/
def Json.getField : Json → String → Json
  | .obj kvs, k => ((kvs.find? (fun p => p.1 == k)).map Prod.snd).getD .null
  | _, _ => .null

/-- Indexing a JSON value by array position, as serde_json indexing does:
Null when the value is not an array or the index is out of range. -/
def Json.getIdx : Json → Nat → Json
  | .arr xs, i => xs.getD i .null
  | _, _ => .null

/-- serde_json as_str: the string when the value is a JSON string. -/
def Json.asStr : Json → Option String
  | .str s => some s
  | _ => none

/-- The lookup json choices 0 message content that both provider clients
perform on the response body. -/
def contentField (j : Json) : Json :=
  (((j.getField "choices").getIdx 0).getField "message").getField "content"

/-- Response extraction shared by both providers: the content string at
choices 0 message content, with the fallback of unwrap_or when that path
does not hold a string. -/
def extractSuggestion (j : Json) : String :=
  ((contentField j).asStr).getD "No suggestion available"

/-- One outbound HTTP POST request as the program builds it. -/
structure NetCall where
  url : String
  headers : List (String × String)
  payload : Json

/-- What the network returns for a request: a transport failure of send, or
a response carrying an HTTP status code and a body; the body is none when
it is not valid JSON, so that the json call of reqwest fails on it. -/
inductive HttpResult where
  | sendError : HttpResult
  | response : Nat → Option Json → HttpResult

/-- The ambient world an invocation runs in: the environment variables, the
outcome of probing a name with which (none models a failure to run the
probe at all), and the network. -/
structure World where
  envVars : String → Option String
  whichStatus : String → Option Bool
  http : NetCall → HttpResult

/-- Rust command.split_whitespace().next().unwrap_or(command): the first
whitespace-delimited token, or the whole string when it has none. -/
def firstToken (command : String) : String :=
  match command.toList.dropWhile Char.isWhitespace with
  | [] => command
  | c :: cs => String.mk ((c :: cs).takeWhile (fun d => !d.isWhitespace))

/-- is_command_valid: run which on the first token and take the success of
its exit status, treating a probe failure as false via unwrap_or(false). -/
def isCommandValid (w : World) (command : String) : Bool :=
  (w.whichStatus (firstToken command)).getD false

/-- The prompt string both provider clients embed the failed command in. -/
def buildContext (command : String) : String :=
  "User entered an unrecognized command: '" ++ command
    ++ "'. Provide a helpful suggestion or explanation."

/-- The xAI request body: the prompt under a prompt key and the model
identifier. -/
def xaiPayload (command : String) : Json :=
  .obj [("prompt", .str (buildContext command)), ("model", .str "grok-3")]

/-- The OpenRouter request body: the model identifier and a one-element
messages list holding the prompt as a user-role message. -/
def openrouterPayload (command : String) : Json :=
  .obj [("model", .str "meta-ai/llama-3.1-8b-instruct"),
        ("messages", .arr [.obj [("role", .str "user"),
                                 ("content", .str (buildContext command))]])]

/-- The POST request query_xai_api sends. -/
def xaiCall (apiKey command : String) : NetCall :=
  { url := "https://api.x.ai/v1/grok"
    headers := [("Authorization", "Bearer " ++ apiKey)]
    payload := xaiPayload command }

/-- The POST request query_openrouter_api sends. -/
def openrouterCall (apiKey command : String) : NetCall :=
  { url := "https://openrouter.ai/api/v1/chat/completions"
    headers := [("Authorization", "Bearer " ++ apiKey),
                ("HTTP-Referer", "https://SleepyStudio.xyz"),
                ("X-Title", "TerminAI")]
    payload := openrouterPayload command }

/-- How both provider clients turn what the network returned into the Rust
Result: a send failure propagates as an error through the question-mark
operator, a body that is not valid JSON fails the json call and likewise
propagates, and a parsed body is reduced with extractSuggestion. The HTTP
status code of the response is never inspected. -/
def handleResponse : HttpResult → Except String String
  | .sendError => .error "error sending request"
  | .response _ none => .error "error decoding response body"
  | .response _ (some j) => .ok (extractSuggestion j)

/-- How a provider query ends: the closure handling a missing key calls
process exit directly, every other path hands a Result back to main. -/
inductive QueryOut where
  | exit : Nat → QueryOut
  | done : Except String String → QueryOut

/-- A provider query together with its observable effects. -/
structure QueryResult where
  stderr : List String
  calls : List NetCall
  out : QueryOut

/-- query_xai_api: read XAI_API_KEY (printing to stderr and exiting with
code 1 when it is unset), POST the payload to the xAI endpoint and reduce
the response. -/
def queryXaiApi (w : World) (command : String) : QueryResult :=
  match w.envVars "XAI_API_KEY" with
  | none => ⟨["XAI_API_KEY environment variable not set"], [], .exit 1⟩
  | some apiKey =>
      let call := xaiCall apiKey command
      ⟨[], [call], .done (handleResponse (w.http call))⟩

/-- query_openrouter_api: read OPENROUTER_API_KEY (printing to stderr and
exiting with code 1 when it is unset), POST the payload to the OpenRouter
endpoint and reduce the response. -/
def queryOpenrouterApi (w : World) (command : String) : QueryResult :=
  match w.envVars "OPENROUTER_API_KEY" with
  | none => ⟨["OPENROUTER_API_KEY environment variable not set"], [], .exit 1⟩
  | some apiKey =>
      let call := openrouterCall apiKey command
      ⟨[], [call], .done (handleResponse (w.http call))⟩

/-- The two provider backends. -/
inductive Provider where
  | xai : Provider
  | openrouter : Provider
  deriving DecidableEq, Repr

/-- Provider dispatch of main: API_PROVIDER defaulting to xai through
unwrap_or_else, then the match whose only named arm is openrouter. -/
def selectProvider (v : Option String) : Provider :=
  if v.getD "xai" = "openrouter" then .openrouter else .xai

/-- The environment variable each provider client reads its API key from. -/
def apiKeyVar : Provider → String
  | .xai => "XAI_API_KEY"
  | .openrouter => "OPENROUTER_API_KEY"

/-- The query function main dispatches to for each provider. -/
def queryProvider : Provider → World → String → QueryResult
  | .xai, w, c => queryXaiApi w c
  | .openrouter, w, c => queryOpenrouterApi w c

/-- The request a provider query sends, given the key and the command. -/
def mkCall : Provider → String → String → NetCall
  | .xai, k, c => xaiCall k c
  | .openrouter, k, c => openrouterCall k c

/-- The observable effects of one program run. -/
structure Trace where
  stdoutLines : List String
  stderrLines : List String
  netCalls : List NetCall
  exitCode : Nat

/-- The elapsed-time diagnostic main prints on the success path; the
measured duration is wall-clock time and its value is not modelled. -/
def processingTimeLine : String := "Processing time: <elapsed>"

/-- main, as a function from the world and the argument list (the arguments
after the program name) to the trace of the run: reject an empty argument
list, join the arguments with spaces, exit 0 when the command is valid,
otherwise dispatch on API_PROVIDER to one provider query and print its
suggestion (exit 0) or its error (exit 1). -/
def runMain (w : World) (args : List String) : Trace :=
  if args = [] then
    { stdoutLines := [], stderrLines := ["No command provided"],
      netCalls := [], exitCode := 1 }
  else
    let command := String.intercalate " " args
    if isCommandValid w command then
      { stdoutLines := ["Command '" ++ command ++ "' exists, executing normally."],
        stderrLines := [], netCalls := [], exitCode := 0 }
    else
      let qr := queryProvider (selectProvider (w.envVars "API_PROVIDER")) w command
      match qr.out with
      | .exit code =>
          { stdoutLines := [], stderrLines := qr.stderr,
            netCalls := qr.calls, exitCode := code }
      | .done (.ok s) =>
          { stdoutLines := [s], stderrLines := qr.stderr ++ [processingTimeLine],
            netCalls := qr.calls, exitCode := 0 }
      | .done (.error e) =>
          { stdoutLines := [], stderrLines := qr.stderr ++ ["Error querying API: " ++ e],
            netCalls := qr.calls, exitCode := 1 }

/-- Helper for the proofs: the trace main produces once it holds a query
result (the tail of main past the provider dispatch). -/
def queryResultTrace (qr : QueryResult) : Trace :=
  match qr.out with
  | .exit code =>
      { stdoutLines := [], stderrLines := qr.stderr,
        netCalls := qr.calls, exitCode := code }
  | .done (.ok s) =>
      { stdoutLines := [s], stderrLines := qr.stderr ++ [processingTimeLine],
        netCalls := qr.calls, exitCode := 0 }
  | .done (.error e) =>
      { stdoutLines := [], stderrLines := qr.stderr ++ ["Error querying API: " ++ e],
        netCalls := qr.calls, exitCode := 1 }

/-- The prompt text a request carries: the xAI body holds it under the
prompt key, the OpenRouter body as the content of its first message. -/
def callPrompt (c : NetCall) : Option String :=
  match (c.payload.getField "prompt").asStr with
  | some s => some s
  | none => (((c.payload.getField "messages").getIdx 0).getField "content").asStr

/-- A concrete world for closed instances: no environment variable is set,
no command resolves, every request fails at transport level. -/
def noKeyWorld : World :=
  { envVars := fun _ => none, whichStatus := fun _ => some false,
    http := fun _ => .sendError }

/-- A concrete world for closed instances: every probe succeeds. -/
def validWorld : World :=
  { envVars := fun _ => none, whichStatus := fun _ => some true,
    http := fun _ => .sendError }

/-- A concrete world for closed instances: both API keys are set to k, no
command resolves, and every request gets the given network result. -/
def testWorld (r : HttpResult) : World :=
  { envVars := fun v =>
      if v = "XAI_API_KEY" then some "k"
      else if v = "OPENROUTER_API_KEY" then some "k" else none,
    whichStatus := fun _ => some false,
    http := fun _ => r }

/-- A provider response body whose content field holds the string of the
round-trip example of the specification. -/
def sampleResponse : Json :=
  .obj [("choices", .arr [.obj [("message",
    .obj [("role", .str "assistant"), ("content", .str "try `ls -la`")])]])]

theorem queryProvider_key_none (p : Provider) (w : World) (c : String)
    (h : w.envVars (apiKeyVar p) = none) :
    queryProvider p w c =
      ⟨[apiKeyVar p ++ " environment variable not set"], [], .exit 1⟩ := by
  cases p with
  | xai =>
      simp only [apiKeyVar] at h
      simp [queryProvider, queryXaiApi, apiKeyVar, h]
  | openrouter =>
      simp only [apiKeyVar] at h
      simp [queryProvider, queryOpenrouterApi, apiKeyVar, h]

theorem queryProvider_key_some (p : Provider) (w : World) (c k : String)
    (h : w.envVars (apiKeyVar p) = some k) :
    queryProvider p w c =
      ⟨[], [mkCall p k c], .done (handleResponse (w.http (mkCall p k c)))⟩ := by
  cases p with
  | xai =>
      simp only [apiKeyVar] at h
      simp [queryProvider, queryXaiApi, mkCall, h]
  | openrouter =>
      simp only [apiKeyVar] at h
      simp [queryProvider, queryOpenrouterApi, mkCall, h]

theorem runMain_eq_query (w : World) (args : List String)
    (hne : args ≠ [])
    (hinv : isCommandValid w (String.intercalate " " args) = false) :
    runMain w args =
      queryResultTrace (queryProvider (selectProvider (w.envVars "API_PROVIDER")) w
        (String.intercalate " " args)) := by
  unfold runMain
  rw [if_neg hne, if_neg (by simp [hinv])]
  rfl

theorem runMain_key_none (w : World) (args : List String)
    (hne : args ≠ [])
    (hinv : isCommandValid w (String.intercalate " " args) = false)
    (hkey : w.envVars (apiKeyVar (selectProvider (w.envVars "API_PROVIDER"))) = none) :
    runMain w args =
      { stdoutLines := [],
        stderrLines := [apiKeyVar (selectProvider (w.envVars "API_PROVIDER"))
          ++ " environment variable not set"],
        netCalls := [], exitCode := 1 } := by
  rw [runMain_eq_query w args hne hinv, queryProvider_key_none _ _ _ hkey]
  rfl

theorem runMain_resp_ok (w : World) (args : List String) (k s : String)
    (hne : args ≠ [])
    (hinv : isCommandValid w (String.intercalate " " args) = false)
    (hkey : w.envVars (apiKeyVar (selectProvider (w.envVars "API_PROVIDER"))) = some k)
    (hok : handleResponse (w.http (mkCall (selectProvider (w.envVars "API_PROVIDER")) k
        (String.intercalate " " args))) = .ok s) :
    runMain w args =
      { stdoutLines := [s], stderrLines := [processingTimeLine],
        netCalls := [mkCall (selectProvider (w.envVars "API_PROVIDER")) k
          (String.intercalate " " args)],
        exitCode := 0 } := by
  rw [runMain_eq_query w args hne hinv, queryProvider_key_some _ _ _ _ hkey]
  unfold queryResultTrace
  rw [hok]
  rfl

theorem runMain_resp_err (w : World) (args : List String) (k e : String)
    (hne : args ≠ [])
    (hinv : isCommandValid w (String.intercalate " " args) = false)
    (hkey : w.envVars (apiKeyVar (selectProvider (w.envVars "API_PROVIDER"))) = some k)
    (herr : handleResponse (w.http (mkCall (selectProvider (w.envVars "API_PROVIDER")) k
        (String.intercalate " " args))) = .error e) :
    runMain w args =
      { stdoutLines := [], stderrLines := ["Error querying API: " ++ e],
        netCalls := [mkCall (selectProvider (w.envVars "API_PROVIDER")) k
          (String.intercalate " " args)],
        exitCode := 1 } := by
  rw [runMain_eq_query w args hne hinv, queryProvider_key_some _ _ _ _ hkey]
  unfold queryResultTrace
  rw [herr]
  rfl

theorem runMain_calls_some (w : World) (args : List String) (k : String)
    (hne : args ≠ [])
    (hinv : isCommandValid w (String.intercalate " " args) = false)
    (hkey : w.envVars (apiKeyVar (selectProvider (w.envVars "API_PROVIDER"))) = some k) :
    (runMain w args).netCalls =
      [mkCall (selectProvider (w.envVars "API_PROVIDER")) k
        (String.intercalate " " args)] := by
  cases hr : handleResponse (w.http (mkCall (selectProvider (w.envVars "API_PROVIDER")) k
      (String.intercalate " " args))) with
  | ok s => rw [runMain_resp_ok w args k s hne hinv hkey hr]
  | error e => rw [runMain_resp_err w args k e hne hinv hkey hr]

/-- C1 counterexample: with every request answered by HTTP status 500 whose
body parses as the empty JSON object, the run performs one call, prints the
fallback text as a suggestion on stdout and exits 0, instead of reporting a
Transport or ProviderResponse error and exiting non-zero. -/
theorem C1_http500_not_error :
    (testWorld (.response 500 (some (.obj [])))).http (xaiCall "k" "badcmd")
        = .response 500 (some (.obj [])) ∧
    (runMain (testWorld (.response 500 (some (.obj [])))) ["badcmd"]).netCalls
        = [xaiCall "k" "badcmd"] ∧
    (runMain (testWorld (.response 500 (some (.obj [])))) ["badcmd"]).stdoutLines
        = ["No suggestion available"] ∧
    (runMain (testWorld (.response 500 (some (.obj [])))) ["badcmd"]).exitCode = 0 :=
  ⟨rfl, rfl, rfl, rfl⟩

/-- C1 (amended): the provider clients never inspect the HTTP status code.
On a non-success status the outcome depends only on the body: when the body
is not valid JSON the failure is reported on stderr and the program exits 1
without printing a suggestion, and when the body is valid JSON the program
behaves exactly as on success, printing the extracted suggestion (or the
fallback) on stdout and exiting 0. -/
theorem C1_status_ignored (w : World) (args : List String) (k : String)
    (status : Nat) (body : Option Json)
    (hne : args ≠ [])
    (hinv : isCommandValid w (String.intercalate " " args) = false)
    (hkey : w.envVars (apiKeyVar (selectProvider (w.envVars "API_PROVIDER"))) = some k)
    (hhttp : ∀ c, w.http c = .response status body) :
    (body = none →
      (runMain w args).exitCode = 1 ∧ (runMain w args).stdoutLines = [] ∧
      (runMain w args).stderrLines
        = ["Error querying API: " ++ "error decoding response body"]) ∧
    (∀ j, body = some j →
      (runMain w args).exitCode = 0 ∧
      (runMain w args).stdoutLines = [extractSuggestion j]) := by
  constructor
  · intro hb
    subst hb
    rw [runMain_resp_err w args k "error decoding response body" hne hinv hkey
      (by rw [hhttp]; rfl)]
    exact ⟨rfl, rfl, rfl⟩
  · intro j hb
    subst hb
    rw [runMain_resp_ok w args k (extractSuggestion j) hne hinv hkey
      (by rw [hhttp]; rfl)]
    exact ⟨rfl, rfl⟩

/-- C1 witness: the amended statement applied at HTTP status 500 with an
unparseable body (exit 1) and with the empty JSON object as body (exit 0). -/
theorem C1_status_ignored_witness :
    (runMain (testWorld (.response 500 none)) ["badcmd"]).exitCode = 1 ∧
    (runMain (testWorld (.response 500 (some (.obj [])))) ["badcmd"]).exitCode = 0 :=
  ⟨((C1_status_ignored (testWorld (.response 500 none)) ["badcmd"] "k" 500 none
      (by decide) rfl rfl (fun _ => rfl)).1 rfl).1,
   ((C1_status_ignored (testWorld (.response 500 (some (.obj [])))) ["badcmd"] "k" 500
      (some (.obj [])) (by decide) rfl rfl (fun _ => rfl)).2 (.obj []) rfl).1⟩

/-- C2 counterexample: the xAI request body carries no messages list at all,
and the OpenRouter message list holds a single user-role message, with no
system message before it. -/
theorem C2_no_system_message :
    (xaiPayload "gti status").getField "messages" = Json.null ∧
    (openrouterPayload "gti status").getField "messages" =
      Json.arr [Json.obj [("role", Json.str "user"),
        ("content", Json.str (buildContext "gti status"))]] :=
  ⟨rfl, rfl⟩

/-- C2 (amended): every request body the run sends carries the target model
identifier, but its shape is provider-specific: the xAI body has no
messages list and instead carries the prompt directly under a prompt key,
while the OpenRouter body carries a messages list holding exactly one
user-role message whose content is the prompt; neither provider sends a
system message. -/
theorem C2_request_shape (w : World) (args : List String) (k : String)
    (hne : args ≠ [])
    (hinv : isCommandValid w (String.intercalate " " args) = false)
    (hkey : w.envVars (apiKeyVar (selectProvider (w.envVars "API_PROVIDER"))) = some k) :
    ∀ c ∈ (runMain w args).netCalls,
      (c.payload.getField "model" = Json.str "grok-3" ∨
       c.payload.getField "model" = Json.str "meta-ai/llama-3.1-8b-instruct") ∧
      (selectProvider (w.envVars "API_PROVIDER") = Provider.xai →
        c.payload.getField "prompt"
            = Json.str (buildContext (String.intercalate " " args)) ∧
        c.payload.getField "messages" = Json.null) ∧
      (selectProvider (w.envVars "API_PROVIDER") = Provider.openrouter →
        c.payload.getField "messages" =
          Json.arr [Json.obj [("role", Json.str "user"),
            ("content", Json.str (buildContext (String.intercalate " " args)))]]) := by
  intro c hc
  rw [runMain_calls_some w args k hne hinv hkey, List.mem_singleton] at hc
  subst hc
  cases hp : selectProvider (w.envVars "API_PROVIDER") with
  | xai =>
      refine ⟨Or.inl rfl, fun _ => ⟨rfl, rfl⟩, fun h => ?_⟩
      exact absurd h (by decide)
  | openrouter =>
      refine ⟨Or.inr rfl, fun h => ?_, fun _ => rfl⟩
      exact absurd h (by decide)

/-- C2 witness: the amended statement applied to the one call of a concrete
xAI run. -/
theorem C2_request_shape_witness :
    (xaiCall "k" "gti status").payload.getField "prompt"
        = Json.str (buildContext "gti status") ∧
    (xaiCall "k" "gti status").payload.getField "messages" = Json.null :=
  (C2_request_shape (testWorld .sendError) ["gti", "status"] "k"
      (by decide) rfl rfl (xaiCall "k" "gti status")
      (List.mem_singleton.mpr rfl)).2.1 rfl

/-- C3: when the first whitespace-delimited token of the joined command
resolves on the search path, the run performs no network call and exits
with the success status 0. -/
theorem C3_valid_no_network (w : World) (args : List String)
    (hne : args ≠ [])
    (hres : w.whichStatus (firstToken (String.intercalate " " args)) = some true) :
    (runMain w args).netCalls = [] ∧ (runMain w args).exitCode = 0 := by
  have hv : isCommandValid w (String.intercalate " " args) = true := by
    simp [isCommandValid, hres]
  unfold runMain
  rw [if_neg hne, if_pos hv]
  exact ⟨rfl, rfl⟩

/-- C3 witness: a concrete world where the probe succeeds. -/
theorem C3_valid_no_network_witness :
    (runMain validWorld ["ls", "-la"]).netCalls = [] ∧
    (runMain validWorld ["ls", "-la"]).exitCode = 0 :=
  C3_valid_no_network validWorld ["ls", "-la"] (by decide) rfl

/-- C4: an empty argument list is reported on stderr, no network call is
performed and the exit code is 1. -/
theorem C4_empty_invocation (w : World) :
    (runMain w []).stderrLines = ["No command provided"] ∧
    (runMain w []).netCalls = [] ∧ (runMain w []).exitCode = 1 :=
  ⟨rfl, rfl, rfl⟩

/-- C5 counterexample: with the first token unresolved but the xAI API key
unset, the process exits inside the key lookup and performs no provider
call at all, so such an invocation does not perform exactly one call. -/
theorem C5_no_call_without_key :
    isCommandValid noKeyWorld "gti status" = false ∧
    noKeyWorld.envVars "XAI_API_KEY" = none ∧
    (runMain noKeyWorld ["gti", "status"]).netCalls = [] ∧
    (runMain noKeyWorld ["gti", "status"]).exitCode = 1 :=
  ⟨rfl, rfl, rfl, rfl⟩

/-- C5 (amended): when the first token does not resolve and the selected
provider has its API key set, the run performs exactly one network call,
whose prompt contains the joined command string verbatim and unaltered as a
substring. -/
theorem C5_one_call_with_command (w : World) (args : List String) (k : String)
    (hne : args ≠ [])
    (hinv : isCommandValid w (String.intercalate " " args) = false)
    (hkey : w.envVars (apiKeyVar (selectProvider (w.envVars "API_PROVIDER"))) = some k) :
    (runMain w args).netCalls.length = 1 ∧
    ∀ c ∈ (runMain w args).netCalls,
      callPrompt c = some ("User entered an unrecognized command: '"
        ++ String.intercalate " " args
        ++ "'. Provide a helpful suggestion or explanation.") := by
  rw [runMain_calls_some w args k hne hinv hkey]
  refine ⟨rfl, ?_⟩
  intro c hc
  rw [List.mem_singleton] at hc
  subst hc
  cases selectProvider (w.envVars "API_PROVIDER") <;> rfl

/-- C5 witness: a concrete run against a world with the key set. -/
theorem C5_one_call_with_command_witness :
    (runMain (testWorld .sendError) ["gti", "status"]).netCalls.length = 1 :=
  (C5_one_call_with_command (testWorld .sendError) ["gti", "status"] "k"
    (by decide) rfl rfl).1

/-- C6: whenever choices 0 message content is present as a string, the
extracted suggestion equals that string exactly. -/
theorem C6_extract_exact (j : Json) (s : String)
    (h : contentField j = Json.str s) :
    extractSuggestion j = s := by
  unfold extractSuggestion
  rw [h]
  rfl

/-- C6 witness: the round-trip example of the specification. -/
theorem C6_extract_exact_witness :
    extractSuggestion sampleResponse = "try `ls -la`" :=
  C6_extract_exact sampleResponse "try `ls -la`" rfl

/-- C7: when the body parses as JSON but choices 0 message content is not
present as a string, the run does not abort: the placeholder is printed on
stdout as the suggestion and the exit code is 0. -/
theorem C7_placeholder_printed (w : World) (args : List String) (k : String)
    (status : Nat) (j : Json)
    (hne : args ≠ [])
    (hinv : isCommandValid w (String.intercalate " " args) = false)
    (hkey : w.envVars (apiKeyVar (selectProvider (w.envVars "API_PROVIDER"))) = some k)
    (hhttp : ∀ c, w.http c = .response status (some j))
    (hmiss : (contentField j).asStr = none) :
    (runMain w args).exitCode = 0 ∧
    (runMain w args).stdoutLines = ["No suggestion available"] := by
  have hextract : extractSuggestion j = "No suggestion available" := by
    unfold extractSuggestion
    rw [hmiss]
    rfl
  rw [runMain_resp_ok w args k (extractSuggestion j) hne hinv hkey (by rw [hhttp]; rfl)]
  rw [hextract]
  exact ⟨rfl, rfl⟩

/-- C7 witness: a concrete 200 response whose body is the empty object. -/
theorem C7_placeholder_printed_witness :
    (runMain (testWorld (.response 200 (some (.obj [])))) ["badcmd"]).exitCode = 0 ∧
    (runMain (testWorld (.response 200 (some (.obj [])))) ["badcmd"]).stdoutLines
      = ["No suggestion available"] :=
  C7_placeholder_printed (testWorld (.response 200 (some (.obj [])))) ["badcmd"] "k"
    200 (.obj []) (by decide) rfl rfl (fun _ => rfl) rfl

/-- C8: when the selected provider has no API key set, the run reports the
missing variable on stderr, performs no network call and exits 1. -/
theorem C8_missing_key (w : World) (args : List String)
    (hne : args ≠ [])
    (hinv : isCommandValid w (String.intercalate " " args) = false)
    (hkey : w.envVars (apiKeyVar (selectProvider (w.envVars "API_PROVIDER"))) = none) :
    (runMain w args).netCalls = [] ∧
    (runMain w args).exitCode = 1 ∧
    (runMain w args).stderrLines
      = [apiKeyVar (selectProvider (w.envVars "API_PROVIDER"))
          ++ " environment variable not set"] := by
  rw [runMain_key_none w args hne hinv hkey]
  exact ⟨rfl, rfl, rfl⟩

/-- C8 witness: the concrete world with no environment variables set. -/
theorem C8_missing_key_witness :
    (runMain noKeyWorld ["gti", "status"]).netCalls = [] ∧
    (runMain noKeyWorld ["gti", "status"]).exitCode = 1 ∧
    (runMain noKeyWorld ["gti", "status"]).stderrLines
      = [apiKeyVar (selectProvider (noKeyWorld.envVars "API_PROVIDER"))
          ++ " environment variable not set"] :=
  C8_missing_key noKeyWorld ["gti", "status"] (by decide) rfl rfl

/-- C9 counterexample: a run that falls through to the suggestion path and
succeeds prints the suggestion and exits 0, not a non-zero code such as
127. -/
theorem C9_fallthrough_exits_zero :
    isCommandValid (testWorld (.response 200 (some sampleResponse))) "gti status"
        = false ∧
    (runMain (testWorld (.response 200 (some sampleResponse)))
        ["gti", "status"]).netCalls.length = 1 ∧
    (runMain (testWorld (.response 200 (some sampleResponse)))
        ["gti", "status"]).stdoutLines = ["try `ls -la`"] ∧
    (runMain (testWorld (.response 200 (some sampleResponse)))
        ["gti", "status"]).exitCode = 0 :=
  ⟨rfl, rfl, rfl, rfl⟩

/-- C9 (amended): the exit code is 0 exactly when something was printed on
stdout (the valid-command confirmation or a produced suggestion); every
failure path - empty invocation, missing key, transport or decode error -
exits with the generic code 1; no other exit code, in particular not 127,
ever occurs. -/
theorem C9_exit_policy (w : World) (args : List String) :
    ((runMain w args).exitCode = 0 ↔ (runMain w args).stdoutLines ≠ []) ∧
    ((runMain w args).exitCode = 0 ∨ (runMain w args).exitCode = 1) := by
  by_cases hne : args = []
  · subst hne
    simp [runMain]
  · by_cases hv : isCommandValid w (String.intercalate " " args) = true
    · unfold runMain
      rw [if_neg hne, if_pos hv]
      simp
    · rw [Bool.not_eq_true] at hv
      cases hkey : w.envVars (apiKeyVar (selectProvider (w.envVars "API_PROVIDER"))) with
      | none =>
          rw [runMain_key_none w args hne hv hkey]
          simp
      | some k =>
          cases hr : handleResponse (w.http (mkCall (selectProvider
              (w.envVars "API_PROVIDER")) k (String.intercalate " " args))) with
          | ok s =>
              rw [runMain_resp_ok w args k s hne hv hkey hr]
              simp
          | error e =>
              rw [runMain_resp_err w args k e hne hv hkey hr]
              simp

/-- C10: only the exact value openrouter of API_PROVIDER selects the
OpenRouter backend; an unset variable or any other value dispatches to
xAI. -/
theorem C10_provider_dispatch (v : Option String) :
    selectProvider v = Provider.openrouter ↔ v = some "openrouter" := by
  unfold selectProvider
  cases v with
  | none => decide
  | some s =>
      by_cases h : s = "openrouter"
      · subst h
        decide
      · simp [Option.getD, h]

end TerminAI
